import Mathlib

/-!
Verification of the clinical-trial data agent
(`question_4_clinical_agent/clinical_data_agent.py`).

The development shallowly embeds the two logic-bearing parts of the agent:
the rule-based question resolver `_mock_llm_response` and the filter
execution in `query`, together with the remote-classifier fallback in
`_call_llm`.  Python strings become Lean `String`s, `str.lower`/`str.upper`
become `String.toLower`/`String.toUpper`, substring containment (`in`)
becomes `strIn`, a pandas row becomes an association list from column name
to optional cell (a `none` cell models NaN), and exceptions become
`Except`/`Option` results.
-/

set_option autoImplicit false

namespace ClinicalAgent

/-- Python `str.lower` (ASCII letters, as used by the agent's keyword
rules): lowercase every character. -/
def strLower (s : String) : String :=
  ⟨s.data.map Char.toLower⟩

/-- Python `str.upper` (ASCII letters, as used by the agent's filter
predicate): uppercase every character. -/
def strUpper (s : String) : String :=
  ⟨s.data.map Char.toUpper⟩

/-- Python `needle in hay` on strings: contiguous substring containment. -/
def strIn (needle hay : String) : Bool :=
  hay.toList.tails.any (fun t => needle.toList.isPrefixOf t)

/-- The structured output of the resolver: the dict
`{"target_column": ..., "filter_value": ...}`. -/
structure ParsedQuery where
  targetColumn : String
  filterValue : String
deriving Repr, DecidableEq

/-- The `conditions` dict of `_mock_llm_response`, in Python insertion
(= iteration) order. -/
def conditions : List (String × String) :=
  [("erythema", "ERYTHEMA"),
   ("diarrhea", "DIARRHOEA"),
   ("diarrhoea", "DIARRHOEA"),
   ("fatigue", "FATIGUE"),
   ("pruritus", "APPLICATION SITE PRURITUS"),
   ("itching", "APPLICATION SITE PRURITUS"),
   ("headache", "HEADACHE"),
   ("nausea", "NAUSEA"),
   ("hiatus hernia", "HIATUS HERNIA"),
   ("bundle branch block", "BUNDLE BRANCH BLOCK LEFT"),
   ("respiratory infection", "UPPER RESPIRATORY TRACT INFECTION")]

/-- Outcome mapping block of `_mock_llm_response` (reached when every
earlier rule fell through), including the default fallback. -/
def mockOutcome (ql : String) : ParsedQuery :=
  if strIn "outcome" ql || strIn "resolved" ql || strIn "recovered" ql then
    if strIn "not" ql then ⟨"AEOUT", "NOT RECOVERED/NOT RESOLVED"⟩
    else ⟨"AEOUT", "RECOVERED/RESOLVED"⟩
  else ⟨"AESEV", "MILD"⟩

/-- Relationship mapping block of `_mock_llm_response`; when the trigger
words are present but no relationship value is, control falls through. -/
def mockRelationship (ql : String) : ParsedQuery :=
  if strIn "relationship" ql || strIn "related" ql then
    if strIn "probable" ql then ⟨"AEREL", "PROBABLE"⟩
    else if strIn "possible" ql then ⟨"AEREL", "POSSIBLE"⟩
    else if strIn "remote" ql then ⟨"AEREL", "REMOTE"⟩
    else if strIn "none" ql then ⟨"AEREL", "NONE"⟩
    else mockOutcome ql
  else mockOutcome ql

/-- Serious-event mapping block of `_mock_llm_response`. -/
def mockSerious (ql : String) : ParsedQuery :=
  if strIn "serious" ql then
    ⟨"AESER", if strIn "yes" ql || strIn "serious" ql then "Y" else "N"⟩
  else mockRelationship ql

/-- Specific-condition (`AETERM`) lookup block of `_mock_llm_response`:
first key of `conditions` contained in the question wins. -/
def mockConditions (ql : String) : ParsedQuery :=
  match conditions.find? (fun kv => strIn kv.1 ql) with
  | some kv => ⟨"AETERM", kv.2⟩
  | none => mockSerious ql

/-- Body-system (`AESOC`) mapping block of `_mock_llm_response`. -/
def mockBodySystem (ql : String) : ParsedQuery :=
  if ["cardiac", "heart", "cardiovascular"].any (fun w => strIn w ql) then
    ⟨"AESOC", "CARDIAC DISORDERS"⟩
  else if ["skin", "dermal", "dermatologic"].any (fun w => strIn w ql) then
    ⟨"AESOC", "SKIN AND SUBCUTANEOUS TISSUE DISORDERS"⟩
  else if ["gastrointestinal", "digestive", "gi", "stomach"].any (fun w => strIn w ql) then
    ⟨"AESOC", "GASTROINTESTINAL DISORDERS"⟩
  else if ["infection", "infectious"].any (fun w => strIn w ql) then
    ⟨"AESOC", "INFECTIONS AND INFESTATIONS"⟩
  else if ["general disorder", "administration site"].any (fun w => strIn w ql) then
    ⟨"AESOC", "GENERAL DISORDERS AND ADMINISTRATION SITE CONDITIONS"⟩
  else mockConditions ql

/-- The rule chain of `_mock_llm_response`, applied to the already
lowercased question: severity first, then fall through the later blocks. -/
def mockRules (ql : String) : ParsedQuery :=
  if ["severity", "severe", "intensity", "intense"].any (fun w => strIn w ql) then
    if strIn "mild" ql then ⟨"AESEV", "MILD"⟩
    else if strIn "moderate" ql then ⟨"AESEV", "MODERATE"⟩
    else if strIn "severe" ql then ⟨"AESEV", "SEVERE"⟩
    else mockBodySystem ql
  else mockBodySystem ql

/-- `ClinicalTrialDataAgent._mock_llm_response`: lowercase the question,
then run the rule chain. -/
def mockLlmResponse (question : String) : ParsedQuery :=
  mockRules (strLower question)

/-! Firing conditions of the individual rule blocks, used to state when a
block returns a result rather than falling through. -/

/-- The severity rule returns iff a trigger word and a level word are both
contained in the lowercased question. -/
def severityRuleFires (ql : String) : Bool :=
  (["severity", "severe", "intensity", "intense"].any (fun w => strIn w ql)) &&
    (strIn "mild" ql || strIn "moderate" ql || strIn "severe" ql)

/-- Some body-system keyword group matches. -/
def bodyRuleFires (ql : String) : Bool :=
  ["cardiac", "heart", "cardiovascular", "skin", "dermal", "dermatologic",
   "gastrointestinal", "digestive", "gi", "stomach", "infection", "infectious",
   "general disorder", "administration site"].any (fun w => strIn w ql)

/-- Some key of the specific-condition table is contained in the question. -/
def conditionRuleFires (ql : String) : Bool :=
  conditions.any (fun kv => strIn kv.1 ql)

/-- The relationship rule returns iff a trigger word and a relationship
value are both contained in the question. -/
def relationshipRuleFires (ql : String) : Bool :=
  (strIn "relationship" ql || strIn "related" ql) &&
    (strIn "probable" ql || strIn "possible" ql || strIn "remote" ql || strIn "none" ql)

/-- The outcome rule returns iff one of its trigger words is contained. -/
def outcomeRuleFires (ql : String) : Bool :=
  strIn "outcome" ql || strIn "resolved" ql || strIn "recovered" ql

/-- No rule of the chain returns a non-default result. -/
def noRuleMatches (ql : String) : Bool :=
  !(severityRuleFires ql || bodyRuleFires ql || conditionRuleFires ql ||
    strIn "serious" ql || relationshipRuleFires ql || outcomeRuleFires ql)

/-! The dataset and the filter execution of `ClinicalTrialDataAgent.query`. -/

/-- A dataframe row: for each column name, the cell, with `none` for a
missing/NaN cell. -/
abbrev Row := List (String × Option String)

/-- The loaded dataframe `self.df`: its column names and its rows in file
order. -/
structure Dataset where
  columns : List String
  rows : List Row
deriving Repr, DecidableEq

/-- Reading the cell of row `r` in column `c`; a missing entry is a NaN
cell. -/
def getCell (r : Row) (c : String) : Option String :=
  match r.find? (fun kv => kv.1 == c) with
  | some kv => kv.2
  | none => none

/-- The pandas predicate `df[col].str.upper() == value.upper()` at one row:
NaN cells compare unequal, so they never match. -/
def rowMatches (col value : String) (r : Row) : Bool :=
  match getCell r col with
  | some cell => strUpper cell == strUpper value
  | none => false

/-- Helper for `uniqueFirstSeen`: drop elements already seen. -/
def uniqueAux {α : Type} [DecidableEq α] : List α → List α → List α
  | [], _ => []
  | x :: xs, seen => if x ∈ seen then uniqueAux xs seen else x :: uniqueAux xs (x :: seen)

/-- pandas `Series.unique()`: distinct values in first-seen order. -/
def uniqueFirstSeen {α : Type} [DecidableEq α] (xs : List α) : List α :=
  uniqueAux xs []

/-- The only failure of the filter execution: the requested column is
absent from the dataframe (a pandas `KeyError`). -/
inductive QueryError where
  | invalidColumn (name : String)
deriving Repr, DecidableEq

/-- The triple returned by `ClinicalTrialDataAgent.query`:
`(count, unique_subjects, filtered_df)`. -/
structure QueryResult where
  matchCount : Nat
  subjectIds : List (Option String)
  matchedRows : List Row
deriving Repr, DecidableEq

/-- The filter execution of `ClinicalTrialDataAgent.query` on an already
parsed query: select the rows whose cell in the target column equals the
filter value case-insensitively, then collect the distinct `USUBJID`
values of the selection in first-seen order and count them.  Accessing a
column absent from the dataframe raises `KeyError` in pandas, modelled as
an `invalidColumn` error. -/
def query (df : Dataset) (pq : ParsedQuery) : Except QueryError QueryResult :=
  if pq.targetColumn ∈ df.columns then
    let matched := df.rows.filter (rowMatches pq.targetColumn pq.filterValue)
    if "USUBJID" ∈ df.columns then
      let subs := uniqueFirstSeen (matched.map (fun r => getCell r "USUBJID"))
      .ok ⟨subs.length, subs, matched⟩
    else .error (.invalidColumn "USUBJID")
  else .error (.invalidColumn pq.targetColumn)

/-! The remote classifier boundary of `ClinicalTrialDataAgent._call_llm`. -/

/-- A JSON field value as far as the agent inspects it: a string, or
anything else (number, array, object, null). -/
inductive JLeaf where
  | jstr (s : String)
  | jother
deriving Repr, DecidableEq

/-- A parsed JSON value, as returned by `json.loads` on the remote
response, to the depth the agent inspects it: an object mapping keys to
field values, or a non-object value (string, number, array, ...). -/
inductive JVal where
  | jobj (fields : List (String × JLeaf))
  | jnonobj
deriving Repr, DecidableEq

/-- The outcome of the remote call as seen inside `_call_llm`'s `try`
block: `failure` covers `ImportError`, transport/auth exceptions and a
`json.loads` parse exception (all caught); `success j` means `json.loads`
returned the value `j`, of whatever shape. -/
inductive RemoteOutcome where
  | failure
  | success (j : JVal)
deriving Repr, DecidableEq

/-- The rule-based response, as the JSON-like dict `_mock_llm_response`
builds. -/
def mockAsJVal (question : String) : JVal :=
  .jobj [("target_column", JLeaf.jstr (mockLlmResponse question).targetColumn),
         ("filter_value", JLeaf.jstr (mockLlmResponse question).filterValue)]

/-- `ClinicalTrialDataAgent._call_llm`: the mock response when mocking is
on or the remote call fails inside the `try` block; otherwise whatever
value `json.loads` produced, returned unvalidated. -/
def callLLM (useMock : Bool) (remote : RemoteOutcome) (question : String) : JVal :=
  if useMock then mockAsJVal question
  else
    match remote with
    | .failure => mockAsJVal question
    | .success j => j

/-- Python subscripting `j[key]` on a JSON value: a lookup on an object,
an exception (`none`) otherwise. -/
def jGet (j : JVal) (key : String) : Option JLeaf :=
  match j with
  | .jobj fields =>
    match fields.find? (fun kv => kv.1 == key) with
    | some kv => some kv.2
    | none => none
  | _ => none

/-- The field extraction `llm_output['target_column']` /
`llm_output['filter_value']` performed by `query`: `none` models the
`KeyError`/`TypeError` that propagates when the value has the wrong
shape. -/
def parseLLMOutput (j : JVal) : Option ParsedQuery :=
  match jGet j "target_column", jGet j "filter_value" with
  | some (.jstr c), some (.jstr v) => some ⟨c, v⟩
  | _, _ => none

/-- End-to-end `ClinicalTrialDataAgent.query`: classify the question, then
filter; `none` models an exception escaping before any filtering because
the classifier output lacked the expected fields. -/
def agentQuery (useMock : Bool) (remote : RemoteOutcome) (df : Dataset)
    (question : String) : Option (Except QueryError QueryResult) :=
  match parseLLMOutput (callLLM useMock remote question) with
  | some pq => some (query df pq)
  | none => none

/-- Every pair the rule chain can return (the `AESER`/`"N"` entry is the
syntactically present but unreachable else-branch). -/
def mockOutputs : List ParsedQuery :=
  [⟨"AESEV", "MILD"⟩, ⟨"AESEV", "MODERATE"⟩, ⟨"AESEV", "SEVERE"⟩,
   ⟨"AESOC", "CARDIAC DISORDERS"⟩, ⟨"AESOC", "SKIN AND SUBCUTANEOUS TISSUE DISORDERS"⟩,
   ⟨"AESOC", "GASTROINTESTINAL DISORDERS"⟩, ⟨"AESOC", "INFECTIONS AND INFESTATIONS"⟩,
   ⟨"AESOC", "GENERAL DISORDERS AND ADMINISTRATION SITE CONDITIONS"⟩,
   ⟨"AETERM", "ERYTHEMA"⟩, ⟨"AETERM", "DIARRHOEA"⟩, ⟨"AETERM", "FATIGUE"⟩,
   ⟨"AETERM", "APPLICATION SITE PRURITUS"⟩, ⟨"AETERM", "HEADACHE"⟩, ⟨"AETERM", "NAUSEA"⟩,
   ⟨"AETERM", "HIATUS HERNIA"⟩, ⟨"AETERM", "BUNDLE BRANCH BLOCK LEFT"⟩,
   ⟨"AETERM", "UPPER RESPIRATORY TRACT INFECTION"⟩,
   ⟨"AESER", "Y"⟩, ⟨"AESER", "N"⟩,
   ⟨"AEREL", "PROBABLE"⟩, ⟨"AEREL", "POSSIBLE"⟩, ⟨"AEREL", "REMOTE"⟩, ⟨"AEREL", "NONE"⟩,
   ⟨"AEOUT", "NOT RECOVERED/NOT RESOLVED"⟩, ⟨"AEOUT", "RECOVERED/RESOLVED"⟩]

/-- The result-shaping contract of `query`: the matched rows are exactly
the matching rows of the dataset in original order; the subject ids are
the distinct `USUBJID` values of the matched rows in first-seen order,
without duplicates; the count is the number of distinct subject ids and
never exceeds the number of matched rows. -/
def QueryContract (df : Dataset) (pq : ParsedQuery) (res : QueryResult) : Prop :=
  res.matchedRows = df.rows.filter (rowMatches pq.targetColumn pq.filterValue) ∧
  res.matchedRows.Sublist df.rows ∧
  (∀ r, r ∈ res.matchedRows ↔
    r ∈ df.rows ∧ rowMatches pq.targetColumn pq.filterValue r = true) ∧
  res.subjectIds = uniqueFirstSeen (res.matchedRows.map (fun r => getCell r "USUBJID")) ∧
  res.subjectIds.Nodup ∧
  (∀ s, s ∈ res.subjectIds ↔ s ∈ res.matchedRows.map (fun r => getCell r "USUBJID")) ∧
  res.matchCount = (res.matchedRows.map (fun r => getCell r "USUBJID")).toFinset.card ∧
  res.matchCount ≤ res.matchedRows.length

/-! Concrete data used by the witnesses: small datasets in the shape of
`adae.csv`. -/

/-- Witness dataset row: one subject with a lowercase-cased severity
cell. -/
def rowA : Row := [("USUBJID", some "01-701-1015"), ("AESEV", some "Mild")]

def rowB : Row := [("USUBJID", some "01-701-1015"), ("AESEV", some "MILD")]

def rowC : Row := [("USUBJID", some "01-701-1023"), ("AESEV", some "MODERATE")]

/-- Witness dataset: one subject with two matching rows plus one
non-matching row. -/
def dfC1 : Dataset := ⟨["USUBJID", "AESEV"], [rowA, rowB, rowC]⟩

/-- The result of querying `dfC1` for mild severity. -/
def resC1 : QueryResult := ⟨1, [some "01-701-1015"], [rowA, rowB]⟩

/-- Witness dataset row whose `AESEV` cell is NaN. -/
def rowNull : Row := [("USUBJID", some "01-701-1028"), ("AESEV", none)]

/-- Witness dataset containing only the NaN-celled row. -/
def dfC5 : Dataset := ⟨["USUBJID", "AESEV"], [rowNull]⟩

/-- Witness dataset for the case-insensitivity claim. -/
def dfC7 : Dataset :=
  ⟨["USUBJID", "AESEV"], [[("USUBJID", some "01-701-1034"), ("AESEV", some "Moderate")]]⟩

/-! The concrete resolver scenarios of the specification, checked by
evaluation. -/

example : mockLlmResponse "Give me the subjects who had Adverse events of Moderate severity" =
    ⟨"AESEV", "MODERATE"⟩ := by decide

example : mockLlmResponse "Which subjects experienced cardiac disorders?" =
    ⟨"AESOC", "CARDIAC DISORDERS"⟩ := by decide

example : mockLlmResponse "Show me patients with erythema" = ⟨"AETERM", "ERYTHEMA"⟩ := by decide

example : mockLlmResponse "" = ⟨"AESEV", "MILD"⟩ := by decide

example : mockLlmResponse "Which subjects had outcomes that were not resolved?" =
    ⟨"AEOUT", "NOT RECOVERED/NOT RESOLVED"⟩ := by decide

/-! Helper lemmas about `uniqueFirstSeen` (pandas `unique()`). -/

theorem mem_uniqueAux {α : Type} [DecidableEq α] (xs : List α) (seen : List α) (a : α) :
    a ∈ uniqueAux xs seen ↔ a ∈ xs ∧ a ∉ seen := by
  induction xs generalizing seen with
  | nil => simp [uniqueAux]
  | cons x xs ih =>
    by_cases hx : x ∈ seen
    · simp only [uniqueAux, if_pos hx, ih, List.mem_cons]
      constructor
      · rintro ⟨h1, h2⟩
        exact ⟨Or.inr h1, h2⟩
      · rintro ⟨h1 | h1, h2⟩
        · exact absurd (h1 ▸ hx) h2
        · exact ⟨h1, h2⟩
    · simp only [uniqueAux, if_neg hx, List.mem_cons, ih]
      by_cases ha : a = x
      · subst ha
        simp [hx]
      · simp [ha]

theorem nodup_uniqueAux {α : Type} [DecidableEq α] (xs : List α) (seen : List α) :
    (uniqueAux xs seen).Nodup := by
  induction xs generalizing seen with
  | nil => simp [uniqueAux]
  | cons x xs ih =>
    by_cases hx : x ∈ seen
    · simpa [uniqueAux, hx] using ih seen
    · simp only [uniqueAux, if_neg hx, List.nodup_cons]
      refine ⟨fun hmem => ?_, ih (x :: seen)⟩
      exact ((mem_uniqueAux xs (x :: seen) x).1 hmem).2 (List.mem_cons_self x seen)

theorem length_uniqueAux_le {α : Type} [DecidableEq α] (xs : List α) (seen : List α) :
    (uniqueAux xs seen).length ≤ xs.length := by
  induction xs generalizing seen with
  | nil => simp [uniqueAux]
  | cons x xs ih =>
    by_cases hx : x ∈ seen
    · simp only [uniqueAux, if_pos hx, List.length_cons]
      exact le_trans (ih seen) (Nat.le_succ _)
    · simp only [uniqueAux, if_neg hx, List.length_cons]
      exact Nat.succ_le_succ (ih (x :: seen))

theorem mem_uniqueFirstSeen {α : Type} [DecidableEq α] (xs : List α) (a : α) :
    a ∈ uniqueFirstSeen xs ↔ a ∈ xs := by
  simp [uniqueFirstSeen, mem_uniqueAux]

theorem nodup_uniqueFirstSeen {α : Type} [DecidableEq α] (xs : List α) :
    (uniqueFirstSeen xs).Nodup :=
  nodup_uniqueAux xs []

theorem length_uniqueFirstSeen_le {α : Type} [DecidableEq α] (xs : List α) :
    (uniqueFirstSeen xs).length ≤ xs.length :=
  length_uniqueAux_le xs []

theorem toFinset_uniqueFirstSeen {α : Type} [DecidableEq α] (xs : List α) :
    (uniqueFirstSeen xs).toFinset = xs.toFinset := by
  ext a
  simp [List.mem_toFinset, mem_uniqueFirstSeen]

theorem length_uniqueFirstSeen_eq_card {α : Type} [DecidableEq α] (xs : List α) :
    (uniqueFirstSeen xs).length = xs.toFinset.card := by
  rw [← toFinset_uniqueFirstSeen]
  exact (List.toFinset_card_of_nodup (nodup_uniqueFirstSeen xs)).symm

/-! Fall-through lemmas: each rule block hands over to the next one when
its firing condition is false. -/

theorem mockRules_of_not_severity (ql : String) (h : severityRuleFires ql = false) :
    mockRules ql = mockBodySystem ql := by
  unfold severityRuleFires at h
  unfold mockRules
  cases htr : (["severity", "severe", "intensity", "intense"].any (fun w => strIn w ql)) with
  | false => simp [htr]
  | true =>
    rw [htr, Bool.true_and] at h
    simp only [Bool.or_eq_false_iff] at h
    simp [htr, h.1.1, h.1.2, h.2]

theorem mockBodySystem_of_not_fires (ql : String) (h : bodyRuleFires ql = false) :
    mockBodySystem ql = mockConditions ql := by
  unfold bodyRuleFires at h
  simp only [List.any_cons, List.any_nil, Bool.or_eq_false_iff] at h
  unfold mockBodySystem
  simp [h.1, h.2.1, h.2.2.1, h.2.2.2.1, h.2.2.2.2.1, h.2.2.2.2.2.1, h.2.2.2.2.2.2.1,
    h.2.2.2.2.2.2.2.1, h.2.2.2.2.2.2.2.2.1, h.2.2.2.2.2.2.2.2.2.1,
    h.2.2.2.2.2.2.2.2.2.2.1, h.2.2.2.2.2.2.2.2.2.2.2.1,
    h.2.2.2.2.2.2.2.2.2.2.2.2.1, h.2.2.2.2.2.2.2.2.2.2.2.2.2.1]

theorem mockConditions_of_not_fires (ql : String) (h : conditionRuleFires ql = false) :
    mockConditions ql = mockSerious ql := by
  unfold conditionRuleFires at h
  unfold mockConditions
  rw [List.find?_eq_none.mpr]
  intro kv hkv
  have := List.any_eq_false.mp h kv hkv
  simpa using this

theorem mockSerious_of_not_fires (ql : String) (h : strIn "serious" ql = false) :
    mockSerious ql = mockRelationship ql := by
  unfold mockSerious
  simp [h]

theorem mockRelationship_of_not_fires (ql : String) (h : relationshipRuleFires ql = false) :
    mockRelationship ql = mockOutcome ql := by
  unfold relationshipRuleFires at h
  unfold mockRelationship
  cases htr : (strIn "relationship" ql || strIn "related" ql) with
  | false => simp [htr]
  | true =>
    rw [htr, Bool.true_and] at h
    simp only [Bool.or_eq_false_iff] at h
    simp [htr, h.1.1.1, h.1.1.2, h.1.2, h.2]

theorem mockOutcome_of_not_fires (ql : String) (h : outcomeRuleFires ql = false) :
    mockOutcome ql = ⟨"AESEV", "MILD"⟩ := by
  unfold outcomeRuleFires at h
  simp only [Bool.or_eq_false_iff] at h
  unfold mockOutcome
  simp [h.1.1, h.1.2, h.2]

/-! The resolver's possible outputs. -/

theorem mockOutcome_mem (ql : String) : mockOutcome ql ∈ mockOutputs := by
  unfold mockOutcome
  repeat' split
  all_goals decide

theorem mockRelationship_mem (ql : String) : mockRelationship ql ∈ mockOutputs := by
  unfold mockRelationship
  repeat' split
  all_goals first | exact mockOutcome_mem ql | decide

theorem mockSerious_mem (ql : String) : mockSerious ql ∈ mockOutputs := by
  unfold mockSerious
  repeat' split
  all_goals first | exact mockRelationship_mem ql | decide

theorem mockConditions_mem (ql : String) : mockConditions ql ∈ mockOutputs := by
  unfold mockConditions
  split
  · next kv hf =>
    have hmem : kv ∈ conditions := List.mem_of_find?_eq_some hf
    simp only [conditions] at hmem
    fin_cases hmem <;> decide
  · exact mockSerious_mem ql

theorem mockBodySystem_mem (ql : String) : mockBodySystem ql ∈ mockOutputs := by
  unfold mockBodySystem
  repeat' split
  all_goals first | exact mockConditions_mem ql | decide

theorem mockRules_mem (ql : String) : mockRules ql ∈ mockOutputs := by
  unfold mockRules
  repeat' split
  all_goals first | exact mockBodySystem_mem ql | decide

theorem mockLlmResponse_mem (q : String) : mockLlmResponse q ∈ mockOutputs :=
  mockRules_mem (strLower q)

/-! Claims about the rule-based resolver. -/

/-- Claim C2: for every question containing a severity trigger word and
exactly one of the level words "mild"/"moderate"/"severe" in its
lowercasing, the resolver returns column `AESEV` with that level word
uppercased, whatever other rule keywords the question contains. -/
theorem severity_rule_wins (q lvl : String)
    (hl : lvl ∈ (["mild", "moderate", "severe"] : List String))
    (ht : (["severity", "severe", "intensity", "intense"].any
      (fun w => strIn w (strLower q))) = true)
    (hone : ∀ l ∈ (["mild", "moderate", "severe"] : List String),
      strIn l (strLower q) = (l == lvl)) :
    mockLlmResponse q = ⟨"AESEV", strUpper lvl⟩ := by
  unfold mockLlmResponse mockRules
  fin_cases hl
  · have h1 := (hone "mild" (by simp)).trans (by decide : ("mild" == "mild") = true)
    rw [if_pos ht, if_pos h1]
    decide
  · have h1 := (hone "mild" (by simp)).trans (by decide : ("mild" == "moderate") = false)
    have h2 := (hone "moderate" (by simp)).trans
      (by decide : ("moderate" == "moderate") = true)
    rw [if_pos ht, if_neg (by simp [h1]), if_pos h2]
    decide
  · have h1 := (hone "mild" (by simp)).trans (by decide : ("mild" == "severe") = false)
    have h2 := (hone "moderate" (by simp)).trans
      (by decide : ("moderate" == "severe") = false)
    have h3 := (hone "severe" (by simp)).trans (by decide : ("severe" == "severe") = true)
    rw [if_pos ht, if_neg (by simp [h1]), if_neg (by simp [h2]), if_pos h3]
    decide

/-- Witness for C2 at the question "moderate severity". -/
theorem severity_rule_wins_witness :
    mockLlmResponse "moderate severity" = ⟨"AESEV", "MODERATE"⟩ := by
  have h := severity_rule_wins "moderate severity" "moderate" (by decide) (by decide)
    (by decide)
  rw [h]
  decide

/-- Claim C3: when the seriousness rule fires (the lowercased question
contains "serious" and no earlier rule matched), the resolver returns
`AESER` with value "Y": the else-branch value "N" is unreachable because
the trigger word "serious" itself satisfies the "yes"/"serious"
disjunction. -/
theorem serious_rule_always_yes (q : String)
    (hser : strIn "serious" (strLower q) = true)
    (hsev : severityRuleFires (strLower q) = false)
    (hbody : bodyRuleFires (strLower q) = false)
    (hcond : conditionRuleFires (strLower q) = false) :
    mockLlmResponse q = ⟨"AESER", "Y"⟩ := by
  unfold mockLlmResponse
  rw [mockRules_of_not_severity _ hsev, mockBodySystem_of_not_fires _ hbody,
    mockConditions_of_not_fires _ hcond]
  simp [mockSerious, hser]

/-- Witness for C3 at the question "serious". -/
theorem serious_rule_always_yes_witness :
    mockLlmResponse "serious" = ⟨"AESER", "Y"⟩ :=
  serious_rule_always_yes "serious" (by decide) (by decide) (by decide) (by decide)

/-- Claim C6: the resolver is total and, when no rule matches (as for the
empty string), returns the default fallback `AESEV`/"MILD"; its output is
always one of the well-formed pairs of `mockOutputs`. -/
theorem resolver_default_fallback (q : String)
    (h : noRuleMatches (strLower q) = true) :
    mockLlmResponse q = ⟨"AESEV", "MILD"⟩ ∧ mockLlmResponse q ∈ mockOutputs := by
  refine ⟨?_, mockLlmResponse_mem q⟩
  unfold noRuleMatches at h
  simp only [Bool.not_eq_true', Bool.or_eq_false_iff] at h
  obtain ⟨⟨⟨⟨⟨hsev, hbody⟩, hcond⟩, hser⟩, hrel⟩, hout⟩ := h
  unfold mockLlmResponse
  rw [mockRules_of_not_severity _ hsev, mockBodySystem_of_not_fires _ hbody,
    mockConditions_of_not_fires _ hcond, mockSerious_of_not_fires _ hser,
    mockRelationship_of_not_fires _ hrel, mockOutcome_of_not_fires _ hout]

/-- Witness for C6 at the empty question. -/
theorem resolver_default_fallback_witness :
    mockLlmResponse "" = ⟨"AESEV", "MILD"⟩ :=
  (resolver_default_fallback "" (by decide)).1

/-- Case-insensitive match against an already-uppercase filter value
reduces to a one-sided uppercase comparison. -/
theorem rowMatches_of_upper_fixed (col v : String) (r : Row) (hv : strUpper v = v) :
    rowMatches col v r = ((getCell r col).map strUpper == some v) := by
  unfold rowMatches
  cases hc : getCell r col with
  | none => rfl
  | some c =>
    show (strUpper c == strUpper v) = (some (strUpper c) == some v)
    rw [hv]
    rfl

/-- Claim C9: every filter value the resolver emits is already fully
uppercase, so for rule-resolved queries the executor's two-sided uppercase
predicate collapses to comparing the uppercased cell with the value as
emitted. -/
theorem resolver_values_uppercase (q : String) (r : Row) :
    strUpper (mockLlmResponse q).filterValue = (mockLlmResponse q).filterValue ∧
    rowMatches (mockLlmResponse q).targetColumn (mockLlmResponse q).filterValue r =
      ((getCell r (mockLlmResponse q).targetColumn).map strUpper ==
        some (mockLlmResponse q).filterValue) := by
  have hup : strUpper (mockLlmResponse q).filterValue = (mockLlmResponse q).filterValue := by
    obtain ⟨pq, hpq, hm⟩ : ∃ pq, mockLlmResponse q = pq ∧ pq ∈ mockOutputs :=
      ⟨_, rfl, mockLlmResponse_mem q⟩
    rw [hpq]
    simp only [mockOutputs] at hm
    fin_cases hm <;> decide
  exact ⟨hup, rowMatches_of_upper_fixed _ _ r hup⟩

/-- Claim C10: the resolver's target column is always one of the six
columns `AESEV`, `AESOC`, `AETERM`, `AESER`, `AEREL`, `AEOUT`; in
particular it never emits `AEBODSYS`. -/
theorem resolver_column_universe (q : String) :
    (mockLlmResponse q).targetColumn ∈
      (["AESEV", "AESOC", "AETERM", "AESER", "AEREL", "AEOUT"] : List String) ∧
    (mockLlmResponse q).targetColumn ≠ "AEBODSYS" := by
  obtain ⟨pq, hpq, hm⟩ : ∃ pq, mockLlmResponse q = pq ∧ pq ∈ mockOutputs :=
    ⟨_, rfl, mockLlmResponse_mem q⟩
  rw [hpq]
  simp only [mockOutputs] at hm
  fin_cases hm <;> exact ⟨by decide, by decide⟩

/-! Claims about the filter execution. -/

/-- What a successful `query` computed, read off from the definition. -/
theorem query_ok_elim (df : Dataset) (pq : ParsedQuery) (res : QueryResult)
    (h : query df pq = .ok res) :
    res.matchedRows = df.rows.filter (rowMatches pq.targetColumn pq.filterValue) ∧
    res.subjectIds = uniqueFirstSeen (res.matchedRows.map (fun r => getCell r "USUBJID")) ∧
    res.matchCount = res.subjectIds.length := by
  unfold query at h
  by_cases hc : pq.targetColumn ∈ df.columns
  · rw [if_pos hc] at h
    by_cases hu : "USUBJID" ∈ df.columns
    · rw [if_pos hu] at h
      simp only [Except.ok.injEq] at h
      subst h
      exact ⟨rfl, rfl, rfl⟩
    · rw [if_neg hu] at h
      exact absurd h (by simp)
  · rw [if_neg hc] at h
    exact absurd h (by simp)

/-- Claim C1: every successful `query` satisfies the `QueryResult`
contract. -/
theorem query_satisfies_contract (df : Dataset) (pq : ParsedQuery) (res : QueryResult)
    (h : query df pq = .ok res) : QueryContract df pq res := by
  obtain ⟨hrows, hsubs, hcount⟩ := query_ok_elim df pq res h
  refine ⟨hrows, ?_, ?_, hsubs, ?_, ?_, ?_, ?_⟩
  · rw [hrows]
    exact List.filter_sublist df.rows
  · intro r
    rw [hrows]
    exact List.mem_filter
  · rw [hsubs]
    exact nodup_uniqueFirstSeen _
  · intro s
    rw [hsubs]
    exact mem_uniqueFirstSeen _ s
  · rw [hcount, hsubs]
    exact length_uniqueFirstSeen_eq_card _
  · rw [hcount, hsubs]
    calc (uniqueFirstSeen (res.matchedRows.map (fun r => getCell r "USUBJID"))).length
        ≤ (res.matchedRows.map (fun r => getCell r "USUBJID")).length :=
          length_uniqueFirstSeen_le _
      _ = res.matchedRows.length := List.length_map _ _

/-- Witness for C1: the contract at a concrete dataset and query. -/
theorem query_satisfies_contract_witness : QueryContract dfC1 ⟨"AESEV", "mild"⟩ resC1 :=
  query_satisfies_contract dfC1 ⟨"AESEV", "mild"⟩ resC1 (by rfl)

/-- Claim C4: on a dataset with a `USUBJID` column, `query` fails exactly
when the requested column is absent, with an `invalidColumn` error naming
it; when the column is present it succeeds, and an empty match set is a
valid result with `matchCount` zero. -/
theorem query_error_handling (df : Dataset) (pq : ParsedQuery)
    (hu : "USUBJID" ∈ df.columns) :
    (pq.targetColumn ∉ df.columns →
      query df pq = .error (.invalidColumn pq.targetColumn)) ∧
    (pq.targetColumn ∈ df.columns → ∃ res, query df pq = .ok res ∧
      (df.rows.filter (rowMatches pq.targetColumn pq.filterValue) = [] →
        res.matchCount = 0)) := by
  constructor
  · intro hc
    unfold query
    rw [if_neg hc]
  · intro hc
    refine ⟨⟨(uniqueFirstSeen ((df.rows.filter
        (rowMatches pq.targetColumn pq.filterValue)).map
        (fun r => getCell r "USUBJID"))).length,
      uniqueFirstSeen ((df.rows.filter (rowMatches pq.targetColumn pq.filterValue)).map
        (fun r => getCell r "USUBJID")),
      df.rows.filter (rowMatches pq.targetColumn pq.filterValue)⟩, ?_, ?_⟩
    · unfold query
      rw [if_pos hc, if_pos hu]
    · intro hE
      simp [hE, uniqueFirstSeen, uniqueAux]

/-- Witness for C4: requesting the absent column "NOPE" on a concrete
dataset yields the `invalidColumn` error. -/
theorem query_error_handling_witness :
    query dfC1 ⟨"NOPE", "X"⟩ = .error (.invalidColumn "NOPE") :=
  (query_error_handling dfC1 ⟨"NOPE", "X"⟩ (by decide)).1 (by decide)

/-- Claim C5: a missing/NaN cell in the filtered column never matches and
never causes a failure: no row of `matchedRows` has a `none` cell in the
target column. -/
theorem null_cells_never_match (df : Dataset) (pq : ParsedQuery) (res : QueryResult)
    (h : query df pq = .ok res) :
    (∀ col v (r : Row), getCell r col = none → rowMatches col v r = false) ∧
    (∀ r ∈ res.matchedRows, getCell r pq.targetColumn ≠ none) := by
  have hnm : ∀ col v (r : Row), getCell r col = none → rowMatches col v r = false := by
    intro col v r hr
    unfold rowMatches
    rw [hr]
  refine ⟨hnm, fun r hr hnone => ?_⟩
  rw [(query_ok_elim df pq res h).1] at hr
  have hmt := (List.mem_filter.mp hr).2
  rw [hnm pq.targetColumn pq.filterValue r hnone] at hmt
  exact Bool.noConfusion hmt

/-- Witness for C5: the NaN row does not match, and the query still
succeeds (with no matches) rather than failing. -/
theorem null_cells_never_match_witness :
    rowMatches "AESEV" "MILD" rowNull = false :=
  (null_cells_never_match dfC5 ⟨"AESEV", "MILD"⟩ ⟨0, [], []⟩ (by rfl)).1
    "AESEV" "MILD" rowNull (by rfl)

/-- Claim C7: the match predicate holds iff the uppercased cell equals the
uppercased value, so filter values differing only in case give identical
results. -/
theorem filter_case_insensitive (df : Dataset) (col v₁ v₂ : String)
    (h : strUpper v₁ = strUpper v₂) :
    query df ⟨col, v₁⟩ = query df ⟨col, v₂⟩ ∧
    (∀ v (r : Row), rowMatches col v r = true ↔
      ∃ c, getCell r col = some c ∧ strUpper c = strUpper v) := by
  have hrm : rowMatches col v₁ = rowMatches col v₂ := by
    funext r
    unfold rowMatches
    cases getCell r col with
    | none => rfl
    | some c => rw [h]
  constructor
  · unfold query
    dsimp only
    rw [hrm]
  · intro v r
    unfold rowMatches
    cases hc : getCell r col with
    | none => simp
    | some c => simp [beq_iff_eq]

/-- Witness for C7: the same query with "MODERATE" and "moderate" gives
identical results on a concrete dataset. -/
theorem filter_case_insensitive_witness :
    query dfC7 ⟨"AESEV", "MODERATE"⟩ = query dfC7 ⟨"AESEV", "moderate"⟩ :=
  (filter_case_insensitive dfC7 "AESEV" "MODERATE" "moderate" (by decide)).1

/-! Claim C8 concerns the remote-classifier boundary. -/

/-- Claim C8 (refuted: code bug): a remote response that is valid JSON but
not of the expected shape (here the empty object) is NOT replaced by the
rule-based fallback: `_call_llm` returns it unvalidated, the subsequent
field access fails, and no `ParsedQuery` is produced — while an outright
remote failure does fall back to the mock response. -/
theorem remote_shape_failure_not_caught :
    callLLM false (.success (.jobj [])) "show erythema" = .jobj [] ∧
    callLLM false (.success (.jobj [])) "show erythema" ≠ mockAsJVal "show erythema" ∧
    parseLLMOutput (callLLM false (.success (.jobj [])) "show erythema") = none ∧
    agentQuery false (.success (.jobj [])) dfC1 "show erythema" = none ∧
    callLLM false .failure "show erythema" = mockAsJVal "show erythema" := by
  refine ⟨rfl, by decide, rfl, rfl, rfl⟩

end ClinicalAgent
